import Mathlib

/-!
Verification of the article summarizer application (`app.py`).

The program is a thin orchestration script: an HTTP fetch plus an HTML
text-extraction heuristic (`fetch_article_from_url`), a JSON-file usage
ledger (`load_usage_log`, `save_usage_log`, `check_usage_limit`,
`increment_usage`), a two-stage LLM pipeline (`summarize_article`), and a
UI loop (`main`) gating fetches on a per-user daily cap.

We embed the relevant Python code shallowly:

* Python dicts with string keys become ordered association lists with the
  dict-like access functions `dictGet` / `dictSet` (first occurrence wins,
  update in place, insertion appends — matching Python dict semantics on
  duplicate-free lists, which dicts always are).
* The JSON file becomes an explicit `Json` tree; `save_usage_log` encodes
  the whole ledger to such a tree (a full-overwrite write) and
  `load_usage_log` decodes it back.
* The LLM is an oracle `String → Option String` (`none` = the client
  library raised / returned nothing usable), the HTTP layer an oracle
  returning either an exception or a status code and a parsed HTML tree.
* The Streamlit rerun of `main` becomes a pure function from the session
  inputs (user id, today's date, loaded ledger, button state, URL, the two
  oracles) to a `ShellResult` recording every observable effect: fetches
  issued, LLM prompts issued, what was displayed, the final in-memory
  ledger and the list of file writes performed.
-/

namespace ArticleSummarizer

/-! ## Python dict primitives over association lists -/

/-- `d.get(k, default)` on a Python dict modelled as an association list:
the value at the first occurrence of `k`, else `default`. -/
def dictGet {α : Type} : List (String × α) → String → α → α
  | [], _, default => default
  | (k2, v) :: rest, k, default => if k2 = k then v else dictGet rest k default

/-- `d[k] = v` on a Python dict modelled as an association list: replace the
value at the first occurrence of `k` in place, else append `(k, v)`. -/
def dictSet {α : Type} : List (String × α) → String → α → List (String × α)
  | [], k, v => [(k, v)]
  | (k2, v2) :: rest, k, v =>
      if k2 = k then (k, v) :: rest else (k2, v2) :: dictSet rest k v

/-- Per-user map: ISO date string ↦ count. -/
abbrev DayMap := List (String × Nat)

/-- The usage ledger: user id ↦ per-day counts (`{ userId: { "YYYY-MM-DD": count } }`). -/
abbrev Log := List (String × DayMap)

/-! ## Configuration (`ARTICLE_CAP = 2`) -/

def ARTICLE_CAP : Nat := 2

/-! ## JSON serialization (`json.dump` / `json.load` on the ledger file) -/

/-- JSON values, as produced by Python's `json` module. -/
inductive Json where
  | null : Json
  | bool (b : Bool) : Json
  | num (n : Int) : Json
  | str (s : String) : Json
  | arr (elems : List Json) : Json
  | obj (kvs : List (String × Json)) : Json

/-- `save_usage_log(log)`: serialize the entire ledger as one JSON object
(`json.dump(log, f)` after opening the file in mode `"w"`, i.e. a full
overwrite of the file with exactly this value). -/
def save_usage_log (log : Log) : Json :=
  Json.obj (log.map fun u => (u.1, Json.obj (u.2.map fun d => (d.1, Json.num (Int.ofNat d.2)))))

/-- Decode one count: a JSON number that is a non-negative integer. -/
def decodeCount : Json → Option Nat
  | Json.num n => if 0 ≤ n then some n.toNat else none
  | _ => none

/-- Decode the per-day map of one user. -/
def decodeDays : List (String × Json) → Option DayMap
  | [] => some []
  | (k, v) :: rest =>
      match decodeCount v with
      | none => none
      | some c =>
        match decodeDays rest with
        | none => none
        | some m => some ((k, c) :: m)

/-- Decode one user's value: a JSON object of day counts. -/
def decodeUser : Json → Option DayMap
  | Json.obj kvs => decodeDays kvs
  | _ => none

/-- Decode the user entries of the ledger object. -/
def decodeUsers : List (String × Json) → Option Log
  | [] => some []
  | (k, v) :: rest =>
      match decodeUser v with
      | none => none
      | some m =>
        match decodeUsers rest with
        | none => none
        | some log => some ((k, m) :: log)

/-- `load_usage_log()`: if the ledger file does not exist (`none`), return
the empty dict; otherwise parse the file's JSON value as a ledger
(`some` a valid ledger, `none` when the stored value is not one). -/
def load_usage_log : Option Json → Option Log
  | none => some []
  | some (Json.obj kvs) => decodeUsers kvs
  | some _ => none

/-! ## Usage tracking (`check_usage_limit`, `increment_usage`)

In the source both functions compute `today = str(date.today())` inside;
we pass `today` explicitly, the same value a single run would see. -/

/-- `check_usage_limit(user_id, log)`:
`log.get(user_id, {}).get(today, 0)`. -/
def check_usage_limit (user_id : String) (log : Log) (today : String) : Nat :=
  dictGet (dictGet log user_id []) today 0

/-- `increment_usage(user_id, log)`: ensure `log[user_id]` exists, set
`log[user_id][today] = log[user_id].get(today, 0) + 1`, then call
`save_usage_log(log)`. Returns the mutated ledger and the single
full-overwrite file write that `save_usage_log` performs. -/
def increment_usage (user_id : String) (today : String) (log : Log) : Log × Json :=
  let m := dictGet log user_id []
  let m2 := dictSet m today (dictGet m today 0 + 1)
  let log2 := dictSet log user_id m2
  (log2, save_usage_log log2)

/-! ## HTML model and the extraction heuristic (`fetch_article_from_url`) -/

/-- A parsed HTML node, as BeautifulSoup exposes it: an element with a tag
name and children, or a text node. A page is a list of top-level nodes. -/
inductive Html where
  | elem (tag : String) (children : List Html) : Html
  | text (s : String) : Html

mutual
/-- `node.find_all(t)` including the node itself when it matches: all
elements with tag `t` in the subtree, in document (preorder) order. -/
def findAllN (t : String) : Html → List Html
  | Html.text _ => []
  | Html.elem tag cs => (if tag = t then [Html.elem tag cs] else []) ++ findAllL t cs

/-- `find_all(t)` over a forest of nodes, in document order. -/
def findAllL (t : String) : List Html → List Html
  | [] => []
  | c :: cs => findAllN t c ++ findAllL t cs
end

/-- The children of a node (a text node has none). -/
def childrenOf : Html → List Html
  | Html.elem _ cs => cs
  | Html.text _ => []

mutual
/-- `node.get_text()`: the concatenation of all descendant text. -/
def getText : Html → String
  | Html.text s => s
  | Html.elem _ cs => getTextL cs

/-- `get_text` concatenated over a forest. -/
def getTextL : List Html → String
  | [] => ""
  | c :: cs => getText c ++ getTextL cs
end

/-- Python's notion of whitespace for `str.strip()` (ASCII part). -/
def pyWs (c : Char) : Bool :=
  c = ' ' || c = '\t' || c = '\n' || c = '\r' || c = '\x0b' || c = '\x0c'

/-- Python `s.strip()`: remove leading and trailing whitespace. -/
def pyStrip (s : String) : String :=
  String.mk (((s.data.dropWhile pyWs).reverse.dropWhile pyWs).reverse)

/-- The extraction heuristic of `fetch_article_from_url` applied to the
parsed page: `main_content = soup.find("article") or soup.find("main")`;
`paragraphs = main_content.find_all("p") if main_content else
soup.find_all("p")`; `None` when there are no paragraphs, else the
paragraph texts joined with newlines and stripped. -/
def extract_article (doc : List Html) : Option String :=
  let main_content := (findAllL "article" doc).head? <|> (findAllL "main" doc).head?
  let paragraphs :=
    match main_content with
    | some c => findAllL "p" (childrenOf c)
    | none => findAllL "p" doc
  if paragraphs.isEmpty then none
  else some (pyStrip (String.intercalate "\n" (paragraphs.map getText)))

/-- An exception escaping one of the steps inside the `try` block of
`fetch_article_from_url`. -/
inductive PyExc where
  | requestError : PyExc
  | httpStatusError (code : Nat) : PyExc

/-- The body of the `try` block of `fetch_article_from_url`: issue the GET
(the oracle `http` may raise), `raise_for_status()` on a 4xx/5xx code,
parse (BeautifulSoup's `html.parser` is lenient and total, so the oracle
already yields the parsed tree), and extract. -/
def fetch_body (url : String) (http : String → Except PyExc (Nat × List Html)) :
    Except PyExc (Option String) :=
  match http url with
  | Except.error e => Except.error e
  | Except.ok (status, doc) =>
    if 400 ≤ status ∧ status < 600 then Except.error (PyExc.httpStatusError status)
    else Except.ok (extract_article doc)

/-- `fetch_article_from_url(url)`: the `try` body with the bare `except`
clause turning every exception into `None`. -/
def fetch_article_from_url (url : String) (http : String → Except PyExc (Nat × List Html)) :
    Option String :=
  match fetch_body url http with
  | Except.error _ => none
  | Except.ok r => r

/-! ## Two-stage LLM pipeline (`summarize_article`) -/

/-- The result dict of `summarize_article`. -/
structure SummaryResult where
  bullet_points : String
  summary : String
deriving DecidableEq

/-- The first (extraction) f-string template, with the stripped article
text embedded. -/
def research_prompt (article_text : String) : String :=
  "\n    You are an analytical assistant. Read the article below and extract the key ideas as concise bullet points.\n    Be objective, avoid redundancy, and start each bullet with \x27-\x27.\n    ARTICLE:\n    "
    ++ pyStrip article_text ++ "\n    "

/-- The second (condensation) f-string template, with the bullet text
embedded verbatim. -/
def summarizer_prompt (bullet_points : String) : String :=
  "\n    You are a summarization expert. Using the bullet points below, write a concise, coherent summary in one paragraph.\n    Maintain the original meaning and avoid introducing new information.\n    BULLET POINTS:\n    "
    ++ bullet_points ++ "\n    "

/-- `summarize_article(article_text, llm)`. The oracle `llm` maps a prompt
to `some` response content, or `none` when `llm.invoke` raises (which the
source leaves unhandled, so execution aborts there). Returns the list of
prompts actually sent, in order, and the result dict (`none` = aborted). -/
def summarize_article (article_text : String) (llm : String → Option String) :
    List String × Option SummaryResult :=
  let p1 := research_prompt article_text
  match llm p1 with
  | none => ([p1], none)
  | some r1 =>
    let bullet_points := pyStrip r1
    let p2 := summarizer_prompt bullet_points
    match llm p2 with
    | none => ([p1, p2], none)
    | some r2 => ([p1, p2], some ⟨bullet_points, pyStrip r2⟩)

/-! ## Interactive shell (`main`) -/

/-- Every externally observable effect of one run of `main`. -/
structure ShellResult where
  /-- `st.stop()` was called because the daily cap was reached. -/
  stopped : Bool
  /-- The empty-URL validation warning was shown. -/
  warned : Bool
  /-- URLs passed to `fetch_article_from_url`, in order. -/
  fetchCalls : List String
  /-- Prompts sent to the model, in order. -/
  llmPrompts : List String
  /-- `some (summary, bullet_points)` when the result was rendered. -/
  displayed : Option (String × String)
  /-- The fetch-failure error message, when shown. -/
  errored : Option String
  /-- The in-memory usage log when the run ends. -/
  finalLog : Log
  /-- Full-overwrite writes to the ledger file, in order. -/
  fileWrites : List Json
  /-- The final success confirmation was shown. -/
  success : Bool

/-- One run of `main()`, given the session identity, today's date, the
ledger loaded from disk, whether the button was pressed and with which URL
text, and the two oracles. Follows the source line by line: cap check with
`st.stop()`, empty-URL warning, fetch (`if not article_text` treats both
`None` and the empty string as failure), the two pipeline stages (an
unhandled `llm` exception aborts the run before anything is displayed),
then display, `increment_usage`, and the success message. -/
def main (user_id today : String) (usage_log : Log) (pressed : Bool) (url : String)
    (fetch : String → Option String) (llm : String → Option String) : ShellResult :=
  let count := check_usage_limit user_id usage_log today
  if count ≥ ARTICLE_CAP then
    { stopped := true, warned := false, fetchCalls := [], llmPrompts := [],
      displayed := none, errored := some "Daily article limit reached. Try again tomorrow.",
      finalLog := usage_log, fileWrites := [], success := false }
  else if ¬ pressed then
    { stopped := false, warned := false, fetchCalls := [], llmPrompts := [],
      displayed := none, errored := none,
      finalLog := usage_log, fileWrites := [], success := false }
  else if url = "" then
    { stopped := false, warned := true, fetchCalls := [], llmPrompts := [],
      displayed := none, errored := none,
      finalLog := usage_log, fileWrites := [], success := false }
  else
    match fetch url with
    | none =>
      { stopped := false, warned := false, fetchCalls := [url], llmPrompts := [],
        displayed := none, errored := some "Failed to extract article from URL.",
        finalLog := usage_log, fileWrites := [], success := false }
    | some article_text =>
      if article_text = "" then
        { stopped := false, warned := false, fetchCalls := [url], llmPrompts := [],
          displayed := none, errored := some "Failed to extract article from URL.",
          finalLog := usage_log, fileWrites := [], success := false }
      else
        match summarize_article article_text llm with
        | (prompts, none) =>
          { stopped := false, warned := false, fetchCalls := [url], llmPrompts := prompts,
            displayed := none, errored := none,
            finalLog := usage_log, fileWrites := [], success := false }
        | (prompts, some result) =>
          let inc := increment_usage user_id today usage_log
          { stopped := false, warned := false, fetchCalls := [url], llmPrompts := prompts,
            displayed := some (result.summary, result.bullet_points), errored := none,
            finalLog := inc.1, fileWrites := [inc.2], success := true }

/-! ## Ledger operation sequences (for the session-invariant claims) -/

/-- One ledger operation a session can perform: a `check_usage_limit` read
(which does not change the ledger) or a `recordUse` increment. -/
inductive LedgerOp where
  | read (user_id today : String) : LedgerOp
  | record (user_id today : String) : LedgerOp

/-- Apply one ledger operation to the in-memory ledger. -/
def applyOp : LedgerOp → Log → Log
  | LedgerOp.read _ _, log => log
  | LedgerOp.record u d, log => (increment_usage u d log).1

/-- Apply a sequence of ledger operations in order. -/
def applyOps : List LedgerOp → Log → Log
  | [], log => log
  | op :: ops, log => applyOps ops (applyOp op log)

/-- `n` successive `increment_usage(u, d)` calls starting from the empty
ledger. -/
def recordN (u d : String) : Nat → Log
  | 0 => []
  | n + 1 => (increment_usage u d (recordN u d n)).1

/-! ## Concrete sample inputs (used to instantiate the theorems) -/

/-- A ledger in which user `u1` has already done 2 summarizations on
2024-01-01. -/
def demoLog : Log := [("u1", [("2024-01-01", 2)])]

/-- A sample page: one `article` with paragraphs `A.` and `B.`, plus
surrounding non-article content (including a paragraph outside the
article, which the heuristic must ignore). -/
def sampleDoc : List Html :=
  [Html.elem "html"
    [Html.elem "body"
      [Html.elem "div" [Html.text "nav"],
       Html.elem "article"
         [Html.elem "p" [Html.text "A."],
          Html.elem "p" [Html.text "B."]],
       Html.elem "footer" [Html.elem "p" [Html.text "ignored"]]]]]

/-- A sample page with no paragraph nodes anywhere. -/
def noParaDoc : List Html :=
  [Html.elem "html"
    [Html.elem "body"
      [Html.elem "div" [Html.text "just a div"],
       Html.elem "span" [Html.text "and a span"]]]]

/-- An HTTP oracle that always answers 200 with `sampleDoc`. -/
def sampleHttp : String → Except PyExc (Nat × List Html) :=
  fun _ => Except.ok (200, sampleDoc)

/-- An HTTP oracle that always raises a connection error. -/
def failingHttp : String → Except PyExc (Nat × List Html) :=
  fun _ => Except.error PyExc.requestError

/-- An HTTP oracle that always answers 404 with an empty page. -/
def notFoundHttp : String → Except PyExc (Nat × List Html) :=
  fun _ => Except.ok (404, [])

/-- An HTTP oracle that always answers 200 with the paragraph-free page. -/
def noParaHttp : String → Except PyExc (Nat × List Html) :=
  fun _ => Except.ok (200, noParaDoc)

/-- An LLM oracle that echoes a fixed answer to every prompt. -/
def demoLlm : String → Option String :=
  fun _ => some "  - X\n- Y  "

/-- An LLM oracle whose client always raises. -/
def failingLlm : String → Option String :=
  fun _ => none

/-- A fetcher that always fails. -/
def failingFetch : String → Option String :=
  fun _ => none

/-- A fetcher that always returns a fixed article text. -/
def demoFetch : String → Option String :=
  fun _ => some "Some article text."

/-! ## Dictionary lemmas -/

theorem dictGet_dictSet_same {α : Type} (m : List (String × α)) (k : String) (v d : α) :
    dictGet (dictSet m k v) k d = v := by
  induction m with
  | nil => simp [dictGet, dictSet]
  | cons p rest ih =>
    obtain ⟨k2, v2⟩ := p
    by_cases h : k2 = k
    · simp [dictGet, dictSet, h]
    · simp [dictGet, dictSet, h, ih]

theorem dictGet_dictSet_other {α : Type} (m : List (String × α)) (k k2 : String) (v : α)
    (d : α) (h : k2 ≠ k) : dictGet (dictSet m k v) k2 d = dictGet m k2 d := by
  have hk : k ≠ k2 := fun h2 => h h2.symm
  induction m with
  | nil => simp [dictGet, dictSet, hk]
  | cons p rest ih =>
    obtain ⟨k3, v3⟩ := p
    by_cases h3 : k3 = k
    · simp [dictGet, dictSet, h3, hk]
    · by_cases h4 : k3 = k2
      · simp [dictGet, dictSet, h3, h4, h]
      · simp [dictGet, dictSet, h3, h4, ih]

theorem dictGet_of_forall_ne {α : Type} (m : List (String × α)) (k : String) (d : α)
    (h : ∀ p ∈ m, p.1 ≠ k) : dictGet m k d = d := by
  induction m with
  | nil => rfl
  | cons p rest ih =>
    obtain ⟨k2, v2⟩ := p
    have hk : k2 ≠ k := h (k2, v2) (List.mem_cons_self _ _)
    exact (if_neg hk).trans (ih fun q hq => h q (List.mem_cons_of_mem _ hq))

/-! ## Ledger lemmas -/

theorem check_increment_same (u t : String) (log : Log) :
    check_usage_limit u (increment_usage u t log).1 t = check_usage_limit u log t + 1 := by
  simp [check_usage_limit, increment_usage, dictGet_dictSet_same]

theorem increment_frame_user (u t u2 : String) (log : Log) (h : u2 ≠ u) :
    dictGet (increment_usage u t log).1 u2 [] = dictGet log u2 [] := by
  simp [increment_usage, dictGet_dictSet_other _ _ _ _ _ h]

theorem check_increment_frame_day (u t d : String) (log : Log) (h : d ≠ t) :
    check_usage_limit u (increment_usage u t log).1 d = check_usage_limit u log d := by
  simp [check_usage_limit, increment_usage, dictGet_dictSet_same,
    dictGet_dictSet_other _ _ _ _ _ h]

theorem check_increment_frame (u t u2 d : String) (log : Log) (h : u2 ≠ u ∨ d ≠ t) :
    check_usage_limit u2 (increment_usage u t log).1 d = check_usage_limit u2 log d := by
  rcases h with h | h
  · simp [check_usage_limit, increment_frame_user u t u2 log h]
  · by_cases hu : u2 = u
    · subst hu
      exact check_increment_frame_day u2 t d log h
    · simp [check_usage_limit, increment_frame_user u t u2 log hu]

theorem check_le_increment (u t u2 d : String) (log : Log) :
    check_usage_limit u2 log d ≤ check_usage_limit u2 (increment_usage u t log).1 d := by
  by_cases hu : u2 = u
  · by_cases hd : d = t
    · rw [hu, hd, check_increment_same]
      exact Nat.le_succ _
    · rw [check_increment_frame u t u2 d log (Or.inr hd)]
  · rw [check_increment_frame u t u2 d log (Or.inl hu)]

theorem check_le_applyOps (ops : List LedgerOp) (log : Log) (u d : String) :
    check_usage_limit u log d ≤ check_usage_limit u (applyOps ops log) d := by
  induction ops generalizing log with
  | nil => exact Nat.le_refl _
  | cons op ops ih =>
    refine Nat.le_trans ?_ (ih (applyOp op log))
    cases op with
    | read u2 d2 => exact Nat.le_refl _
    | record u2 d2 => exact check_le_increment u2 d2 u d log

theorem check_recordN_same (u d : String) (n : Nat) :
    check_usage_limit u (recordN u d n) d = n := by
  induction n with
  | zero => rfl
  | succ n ih => rw [recordN, check_increment_same, ih]

theorem check_recordN_other (u d d2 : String) (h : d2 ≠ d) (n : Nat) :
    check_usage_limit u (recordN u d n) d2 = 0 := by
  induction n with
  | zero => rfl
  | succ n ih => rw [recordN, check_increment_frame u d u d2 _ (Or.inr h), ih]

/-! ## JSON round-trip lemmas -/

theorem decodeCount_ofNat (c : Nat) : decodeCount (Json.num (Int.ofNat c)) = some c := by
  show (if (0 : Int) ≤ Int.ofNat c then some (Int.ofNat c).toNat else none) = some c
  have h0 : (0 : Int) ≤ Int.ofNat c := Int.ofNat_le.mpr (Nat.zero_le c)
  rw [if_pos h0]
  rfl

theorem decodeDays_roundtrip (m : DayMap) :
    decodeDays (m.map fun d => (d.1, Json.num (Int.ofNat d.2))) = some m := by
  induction m with
  | nil => rfl
  | cons p rest ih =>
    obtain ⟨k, c⟩ := p
    simp only [List.map_cons, decodeDays, decodeCount_ofNat, ih]

theorem decodeUsers_roundtrip (log : Log) :
    decodeUsers
      (log.map fun u => (u.1, Json.obj (u.2.map fun d => (d.1, Json.num (Int.ofNat d.2)))))
      = some log := by
  induction log with
  | nil => rfl
  | cons p rest ih =>
    obtain ⟨k, m⟩ := p
    simp only [List.map_cons, decodeUsers, decodeUser, decodeDays_roundtrip, ih]

/-! ## HTML lemmas: elements found inside a found container are found in
the whole document -/

theorem mem_of_head?_eq {α : Type} {l : List α} {a : α} (h : l.head? = some a) : a ∈ l := by
  cases l with
  | nil => cases h
  | cons b bs =>
    injection h with h2
    rw [← h2]
    exact List.mem_cons_self _ _

mutual
theorem findAllN_subset (t t2 : String) :
    (n : Html) → ∀ c ∈ findAllN t2 n, ∀ x ∈ findAllN t c, x ∈ findAllN t n
  | Html.text s => by
    intro c hc
    simp [findAllN] at hc
  | Html.elem tag cs => by
    intro c hc x hx
    rw [findAllN] at hc
    rcases List.mem_append.mp hc with h1 | h2
    · by_cases ht : tag = t2
      · rw [if_pos ht] at h1
        have hce : c = Html.elem tag cs := by simpa using h1
        rw [hce] at hx
        exact hx
      · rw [if_neg ht] at h1
        cases h1
    · rw [findAllN]
      exact List.mem_append.mpr (Or.inr (findAllL_subset t t2 cs c h2 x hx))

theorem findAllL_subset (t t2 : String) :
    (ns : List Html) → ∀ c ∈ findAllL t2 ns, ∀ x ∈ findAllN t c, x ∈ findAllL t ns
  | [] => by
    intro c hc
    simp [findAllL] at hc
  | n :: ns => by
    intro c hc x hx
    rw [findAllL] at hc ⊢
    rcases List.mem_append.mp hc with h1 | h2
    · exact List.mem_append.mpr (Or.inl (findAllN_subset t t2 n c h1 x hx))
    · exact List.mem_append.mpr (Or.inr (findAllL_subset t t2 ns c h2 x hx))
end

theorem findAllL_childrenOf_subset (t : String) (c : Html) :
    ∀ x ∈ findAllL t (childrenOf c), x ∈ findAllN t c := by
  cases c with
  | text s =>
    intro x hx
    simp [findAllL, childrenOf] at hx
  | elem tag cs =>
    intro x hx
    rw [findAllN]
    exact List.mem_append.mpr (Or.inr hx)

/-- A page without a single paragraph element yields no extracted text,
whichever container the heuristic picks. -/
theorem extract_article_of_no_p (doc : List Html) (h : findAllL "p" doc = []) :
    extract_article doc = none := by
  have hcont : ∀ c, c ∈ findAllL "article" doc ∨ c ∈ findAllL "main" doc →
      findAllL "p" (childrenOf c) = [] := by
    intro c hc
    rw [List.eq_nil_iff_forall_not_mem]
    intro x hx
    have hxc : x ∈ findAllN "p" c := findAllL_childrenOf_subset "p" c x hx
    have hxdoc : x ∈ findAllL "p" doc := by
      rcases hc with hc | hc
      · exact findAllL_subset "p" "article" doc c hc x hxc
      · exact findAllL_subset "p" "main" doc c hc x hxc
    rw [h] at hxdoc
    cases hxdoc
  unfold extract_article
  cases ha : (findAllL "article" doc).head? with
  | some c =>
    have hp := hcont c (Or.inl (mem_of_head?_eq ha))
    simp [ha, hp]
  | none =>
    cases hm : (findAllL "main" doc).head? with
    | some c =>
      have hp := hcont c (Or.inr (mem_of_head?_eq hm))
      simp [ha, hm, hp]
    | none =>
      simp [ha, hm, h]

/-- Saving then reloading is the identity (shared helper). -/
theorem load_save (log : Log) : load_usage_log (some (save_usage_log log)) = some log := by
  show decodeUsers _ = some log
  exact decodeUsers_roundtrip log

/-! ## Claim theorems -/

/-- C1: once the ledger count for (user, today) is at least `ARTICLE_CAP`,
`main` stops at the cap check: no fetch is issued, no pipeline prompt is
sent, no file write happens and the in-memory ledger is unchanged. -/
theorem shell_cap_refusal (user today : String) (log : Log) (pressed : Bool) (url : String)
    (fetch llm : String → Option String)
    (h : check_usage_limit user log today ≥ ARTICLE_CAP) :
    (main user today log pressed url fetch llm).stopped = true ∧
    (main user today log pressed url fetch llm).fetchCalls = [] ∧
    (main user today log pressed url fetch llm).llmPrompts = [] ∧
    (main user today log pressed url fetch llm).fileWrites = [] ∧
    (main user today log pressed url fetch llm).finalLog = log := by
  simp only [main]
  rw [if_pos h]
  exact ⟨rfl, rfl, rfl, rfl, rfl⟩

/-- Witness for C1: user `u1` already at the cap (2) on 2024-01-01 is
refused. -/
theorem shell_cap_refusal_witness :
    check_usage_limit "u1" demoLog "2024-01-01" ≥ ARTICLE_CAP ∧
    ((main "u1" "2024-01-01" demoLog true "http://x" demoFetch demoLlm).stopped = true ∧
     (main "u1" "2024-01-01" demoLog true "http://x" demoFetch demoLlm).fetchCalls = [] ∧
     (main "u1" "2024-01-01" demoLog true "http://x" demoFetch demoLlm).llmPrompts = [] ∧
     (main "u1" "2024-01-01" demoLog true "http://x" demoFetch demoLlm).fileWrites = [] ∧
     (main "u1" "2024-01-01" demoLog true "http://x" demoFetch demoLlm).finalLog = demoLog) :=
  ⟨by decide,
   shell_cap_refusal "u1" "2024-01-01" demoLog true "http://x" demoFetch demoLlm (by decide)⟩

/-- C2: `increment_usage` increments the count for (userId, today) by
exactly 1, and the write it performs is the serialization of the entire
updated ledger (a full overwrite). -/
theorem increment_usage_adds_one_and_persists (user today : String) (log : Log) :
    check_usage_limit user (increment_usage user today log).1 today
      = check_usage_limit user log today + 1 ∧
    (increment_usage user today log).2 = save_usage_log (increment_usage user today log).1 :=
  ⟨check_increment_same user today log, rfl⟩

/-- C3: `check_usage_limit` returns 0 for an absent user and for an absent
day, and counts `n` after `n` increments from the empty ledger while other
days stay at 0. -/
theorem check_usage_limit_counts :
    (∀ (log : Log) (user day : String), (∀ p ∈ log, p.1 ≠ user) →
      check_usage_limit user log day = 0) ∧
    (∀ (log : Log) (user day : String), (∀ q ∈ dictGet log user [], q.1 ≠ day) →
      check_usage_limit user log day = 0) ∧
    (∀ (user day : String) (n : Nat),
      check_usage_limit user (recordN user day n) day = n) ∧
    (∀ (user day otherDay : String) (n : Nat), otherDay ≠ day →
      check_usage_limit user (recordN user day n) otherDay = 0) := by
  refine ⟨?_, ?_, ?_, ?_⟩
  · intro log user day h
    unfold check_usage_limit
    rw [dictGet_of_forall_ne log user [] h]
    rfl
  · intro log user day h
    exact dictGet_of_forall_ne _ day 0 h
  · intro user day n
    exact check_recordN_same user day n
  · intro user day otherDay n h
    exact check_recordN_other user day otherDay h n

/-- Witness for C3: unknown user `u2` counts 0; three increments for `u1`
count 3 on that day and 0 on another day. -/
theorem check_usage_limit_counts_witness :
    check_usage_limit "u2" demoLog "2024-01-01" = 0 ∧
    check_usage_limit "u1" (recordN "u1" "2024-01-01" 3) "2024-01-01" = 3 ∧
    check_usage_limit "u1" (recordN "u1" "2024-01-01" 3) "2024-01-02" = 0 :=
  ⟨check_usage_limit_counts.1 demoLog "u2" "2024-01-01" (by decide),
   check_usage_limit_counts.2.2.1 "u1" "2024-01-01" 3,
   check_usage_limit_counts.2.2.2 "u1" "2024-01-01" "2024-01-02" 3 (by decide)⟩

/-- C4: on the sample page whose `article` holds paragraphs `A.` and `B.`
the fetcher returns `"A.\nB."`; on any page whose HTML has zero paragraph
elements anywhere it returns `none`. -/
theorem fetcher_article_and_notfound :
    fetch_article_from_url "http://example.com/a" sampleHttp = some "A.\nB." ∧
    (∀ (url : String) (http : String → Except PyExc (Nat × List Html))
       (status : Nat) (doc : List Html),
      http url = Except.ok (status, doc) → findAllL "p" doc = [] →
      fetch_article_from_url url http = none) := by
  constructor
  · decide
  · intro url http status doc hh hp
    by_cases hst : 400 ≤ status ∧ status < 600
    · simp [fetch_article_from_url, fetch_body, hh, hst]
    · simp [fetch_article_from_url, fetch_body, hh, hst, extract_article_of_no_p doc hp]

/-- Witness for C4: a concrete paragraph-free page fetched with status 200
yields `none`. -/
theorem fetcher_article_and_notfound_witness :
    noParaHttp "http://y" = Except.ok (200, noParaDoc) ∧
    findAllL "p" noParaDoc = [] ∧
    fetch_article_from_url "http://y" noParaHttp = none :=
  ⟨rfl, rfl,
   fetcher_article_and_notfound.2 "http://y" noParaHttp 200 noParaDoc rfl rfl⟩

/-- C5: when both model calls answer, the prompts sent are exactly the
research prompt and then the condensation prompt with the trimmed stage-1
output embedded, and the returned summary is the trimmed stage-2 output
verbatim. -/
theorem pipeline_stage2_exact (article_text : String) (llm : String → Option String)
    (r1 r2 : String)
    (h1 : llm (research_prompt article_text) = some r1)
    (h2 : llm (summarizer_prompt (pyStrip r1)) = some r2) :
    summarize_article article_text llm =
      ([research_prompt article_text, summarizer_prompt (pyStrip r1)],
        some ⟨pyStrip r1, pyStrip r2⟩) := by
  simp [summarize_article, h1, h2]

/-- Witness for C5: with a model answering `"  - X\n- Y  "` to every
prompt, stage 2 receives the trimmed bullets `"- X\n- Y"` embedded in the
condensation template and the summary is the trimmed stage-2 answer. -/
theorem pipeline_stage2_exact_witness :
    demoLlm (research_prompt "Some article text.") = some "  - X\n- Y  " ∧
    demoLlm (summarizer_prompt (pyStrip "  - X\n- Y  ")) = some "  - X\n- Y  " ∧
    summarize_article "Some article text." demoLlm =
      ([research_prompt "Some article text.", summarizer_prompt (pyStrip "  - X\n- Y  ")],
        some ⟨pyStrip "  - X\n- Y  ", pyStrip "  - X\n- Y  "⟩) :=
  ⟨rfl, rfl, pipeline_stage2_exact "Some article text." demoLlm _ _ rfl rfl⟩

/-- C6: serializing a ledger and parsing it back yields the identical
ledger. -/
theorem usage_log_roundtrip (log : Log) :
    load_usage_log (some (save_usage_log log)) = some log :=
  load_save log

/-- C7: when the fetcher fails, and when either pipeline stage fails, a
pressed Summarize action performs no file write, leaves the in-memory
ledger unchanged, and displays no result. -/
theorem failure_no_ledger_mutation (user today : String) (log : Log) (url : String)
    (fetch llm : String → Option String) :
    (fetch url = none →
      (main user today log true url fetch llm).fileWrites = [] ∧
      (main user today log true url fetch llm).finalLog = log ∧
      (main user today log true url fetch llm).displayed = none) ∧
    (∀ t, fetch url = some t → (summarize_article t llm).2 = none →
      (main user today log true url fetch llm).fileWrites = [] ∧
      (main user today log true url fetch llm).finalLog = log ∧
      (main user today log true url fetch llm).displayed = none) := by
  constructor
  · intro hf
    by_cases hcap : check_usage_limit user log today ≥ ARTICLE_CAP
    · simp [main, hcap]
    · by_cases hurl : url = ""
      · simp [main, hcap, hurl]
      · simp [main, hcap, hurl, hf]
  · intro t hf h2
    by_cases hcap : check_usage_limit user log today ≥ ARTICLE_CAP
    · simp [main, hcap]
    · by_cases hurl : url = ""
      · simp [main, hcap, hurl]
      · by_cases ht : t = ""
        · simp [main, hcap, hurl, hf, ht]
        · cases hsa : summarize_article t llm with
          | mk prompts res =>
            rw [hsa] at h2
            simp only at h2
            subst h2
            simp [main, hcap, hurl, hf, ht, hsa]

/-- Witness for C7: a failing fetcher, and a fetcher that succeeds
followed by a failing model, both leave the empty ledger untouched. -/
theorem failure_no_ledger_mutation_witness :
    failingFetch "http://x" = none ∧
    ((main "u1" "2024-01-01" [] true "http://x" failingFetch demoLlm).fileWrites = [] ∧
     (main "u1" "2024-01-01" [] true "http://x" failingFetch demoLlm).finalLog = [] ∧
     (main "u1" "2024-01-01" [] true "http://x" failingFetch demoLlm).displayed = none) ∧
    demoFetch "http://x" = some "Some article text." ∧
    (summarize_article "Some article text." failingLlm).2 = none ∧
    ((main "u1" "2024-01-01" [] true "http://x" demoFetch failingLlm).fileWrites = [] ∧
     (main "u1" "2024-01-01" [] true "http://x" demoFetch failingLlm).finalLog = [] ∧
     (main "u1" "2024-01-01" [] true "http://x" demoFetch failingLlm).displayed = none) :=
  ⟨rfl,
   (failure_no_ledger_mutation "u1" "2024-01-01" [] "http://x" failingFetch demoLlm).1 rfl,
   rfl, rfl,
   (failure_no_ledger_mutation "u1" "2024-01-01" [] "http://x" demoFetch failingLlm).2
     "Some article text." rfl rfl⟩

/-- C8: across any sequence of ledger reads and increments, no (user, day)
count ever decreases, and a missing entry reads as 0. -/
theorem ledger_counts_monotone (ops : List LedgerOp) (log : Log) (u d : String) :
    check_usage_limit u log d ≤ check_usage_limit u (applyOps ops log) d ∧
    check_usage_limit u [] d = 0 :=
  ⟨check_le_applyOps ops log u d, rfl⟩

/-- C9: every failure path of `fetch_article_from_url` — a raising HTTP
call, a 4xx/5xx status turned into an exception by `raise_for_status`, or
any exception escaping the `try` body — yields `none` instead of
propagating. -/
theorem fetch_never_raises :
    (∀ (url : String) (http : String → Except PyExc (Nat × List Html)) (e : PyExc),
      http url = Except.error e → fetch_article_from_url url http = none) ∧
    (∀ (url : String) (http : String → Except PyExc (Nat × List Html))
       (status : Nat) (doc : List Html),
      http url = Except.ok (status, doc) → 400 ≤ status → status < 600 →
      fetch_article_from_url url http = none) ∧
    (∀ (url : String) (http : String → Except PyExc (Nat × List Html)) (e : PyExc),
      fetch_body url http = Except.error e → fetch_article_from_url url http = none) := by
  refine ⟨?_, ?_, ?_⟩
  · intro url http e hh
    simp [fetch_article_from_url, fetch_body, hh]
  · intro url http status doc hh h1 h2
    simp [fetch_article_from_url, fetch_body, hh, h1, h2]
  · intro url http e hb
    simp [fetch_article_from_url, hb]

/-- Witness for C9: a connection error and a 404 both come back as
`none`. -/
theorem fetch_never_raises_witness :
    failingHttp "http://z" = Except.error PyExc.requestError ∧
    fetch_article_from_url "http://z" failingHttp = none ∧
    notFoundHttp "http://z" = Except.ok (404, []) ∧
    fetch_article_from_url "http://z" notFoundHttp = none :=
  ⟨rfl, fetch_never_raises.1 "http://z" failingHttp PyExc.requestError rfl,
   rfl, fetch_never_raises.2.1 "http://z" notFoundHttp 404 [] rfl (by decide) (by decide)⟩

/-- C10: `increment_usage` changes nothing but the (userId, today) entry:
other users keep their whole maps, the same user keeps all other days, and
the persisted file parses back to exactly the updated in-memory ledger. -/
theorem increment_usage_frame_thm (user today : String) (log : Log) :
    (∀ u, u ≠ user →
      dictGet (increment_usage user today log).1 u [] = dictGet log u []) ∧
    (∀ d, d ≠ today →
      check_usage_limit user (increment_usage user today log).1 d
        = check_usage_limit user log d) ∧
    load_usage_log (some (increment_usage user today log).2)
      = some (increment_usage user today log).1 := by
  refine ⟨?_, ?_, ?_⟩
  · intro u hu
    exact increment_frame_user user today u log hu
  · intro d hd
    exact check_increment_frame_day user today d log hd
  · exact load_save (increment_usage user today log).1

/-- Witness for C10: incrementing `u1` on 2024-01-02 leaves `u2` and
`u1`'s 2024-01-01 count unchanged. -/
theorem increment_usage_frame_witness :
    dictGet (increment_usage "u1" "2024-01-02" demoLog).1 "u2" []
      = dictGet demoLog "u2" [] ∧
    check_usage_limit "u1" (increment_usage "u1" "2024-01-02" demoLog).1 "2024-01-01"
      = check_usage_limit "u1" demoLog "2024-01-01" :=
  ⟨(increment_usage_frame_thm "u1" "2024-01-02" demoLog).1 "u2" (by decide),
   (increment_usage_frame_thm "u1" "2024-01-02" demoLog).2.1 "2024-01-01" (by decide)⟩

end ArticleSummarizer
